import Mathlib

/-!
# Verification of the oxc loop-capture lint rule and static-initializer rewriter

Shallow embedding of two source files:

* `crates/oxc_linter/src/rules/eslint/no_loop_func.rs` — the `NoLoopFunc`
  lint rule (`NoLoopFunc::run`, `get_function`, `no_loop_func_diagnostic`).
* `crates/oxc_transformer/src/es2022/class_properties/static_prop.rs` — the
  `StaticInitializerVisitor` that rewrites `this`, `delete this` and
  class-name references inside static property initializers.

Machinery the two files call into (node arena lookups, scope binding lookup,
symbol-table primitives, `get_or_init_temp_binding`,
`create_spanned_read_expression`) lives elsewhere in the repository; those
parts are modelled from the specification and marked as such.
-/

namespace NoLoopFunc

/-- Byte span of an AST node (`oxc_span::Span`). `lo`/`hi` stand for the
source fields `start`/`end` (`end` is a Lean keyword). -/
structure Span where
  lo : Nat
  hi : Nat
  deriving DecidableEq, Repr

/-- The AST node kinds (`oxc_ast::AstKind`) that `NoLoopFunc::run` and
`get_function` distinguish.  Every kind the rule does not inspect is
collapsed into `other`; `identifierReference` carries the identifier name
used for the scope binding lookup. -/
inductive AstKind where
  | program
  | identifierReference (name : String)
  | function
  | arrowFunctionExpression
  | forStatement
  | forInStatement
  | forOfStatement
  | whileStatement
  | doWhileStatement
  | blockStatement
  | expressionStatement
  | parenthesizedExpression
  | variableDeclaration
  | variableDeclarator
  | callExpression
  | other
  deriving DecidableEq, Repr

/-- An `AstNode`: id, kind, span, parent node id (none for the program
root), and owning scope id. -/
structure Node where
  id : Nat
  kind : AstKind
  span : Span
  parent : Option Nat
  scopeId : Nat
  deriving DecidableEq, Repr

/-- A lint diagnostic as produced by `no_loop_func_diagnostic`: the message
template and the labelled span. -/
structure Diagnostic where
  message : String
  span : Span
  deriving DecidableEq, Repr

/-- `no_loop_func_diagnostic(span)`: warning with a fixed message template
(the `{{ varNames }}` placeholder is part of the literal string in the
source) labelled with `span`. -/
def noLoopFuncDiagnostic (span : Span) : Diagnostic :=
  { message := "Function declared in a loop contains unsafe references to variable(s) \x7b\x7b varNames \x7d\x7d."
    span := span }

/-- The slice of `LintContext` the rule reads: the node arena, the scope
binding table (`scopes().find_binding`), the symbol declaration table
(`symbols().get_declaration`), and the accumulated diagnostics. -/
structure LintContext where
  nodes : List Node
  /-- Modelled from the spec: `lookup_binding(scope, name)` resolves a name
  visible from a scope to a symbol id (the scope-parent walk is performed by
  the external scope tree; here the fully resolved map is supplied).
  Entries are `(scope id, name, symbol id)`. -/
  bindings : List (Nat × String × Nat)
  /-- Modelled from the spec: `get_declaration(symbol)` returns the symbol's
  declaring node id. Entries are `(symbol id, node id)`. -/
  declarations : List (Nat × Nat)
  diagnostics : List Diagnostic
  deriving DecidableEq, Repr

/-- `ctx.nodes().get_node(id)` — arena lookup by node id. The arena is total
on the ids used by a well-formed tree; a missing id yields a dummy node. -/
def getNode (ctx : LintContext) (id : Nat) : Node :=
  (ctx.nodes.find? (fun n => n.id == id)).getD
    { id := id, kind := .other, span := ⟨0, 0⟩, parent := none, scopeId := 0 }

/-- `ctx.nodes().parent_node(id)` — the parent node, if any. -/
def parentNode (ctx : LintContext) (id : Nat) : Option Node :=
  match (getNode ctx id).parent with
  | none => none
  | some pid => some (getNode ctx pid)

/-- `ctx.scopes().find_binding(scope_id, name)`. -/
def findBinding (ctx : LintContext) (scopeId : Nat) (name : String) : Option Nat :=
  (ctx.bindings.find? (fun e => e.1 == scopeId && e.2.1 == name)).map (fun e => e.2.2)

/-- `ctx.symbols().get_declaration(symbol_id)` — declaring node id. -/
def getDeclaration (ctx : LintContext) (symbolId : Nat) : Nat :=
  ((ctx.declarations.find? (fun e => e.1 == symbolId)).map (fun e => e.2)).getD 0

/-- `get_function`: walk from `node` up the parent chain and return the
first ancestor-or-self whose kind is `AstKind::Function`; `none` when the
walk ends (program root) without meeting one.  `fuel` bounds the walk (the
source loop terminates because parent chains of a well-formed arena are
acyclic; callers pass the arena size). -/
def getFunction (ctx : LintContext) : Nat → Node → Option Node
  | 0, _ => none
  | fuel + 1, n =>
    if n.kind = .function then some n
    else
      match parentNode ctx n.id with
      | none => none
      | some p => getFunction ctx fuel p

/-- The ancestor-or-self chain of a node (for stating properties of the
walks; not itself part of the source). -/
def ancestorChain (ctx : LintContext) : Nat → Node → List Node
  | 0, _ => []
  | fuel + 1, n =>
    n :: (match parentNode ctx n.id with
          | none => []
          | some p => ancestorChain ctx fuel p)

/-- The `while let Some(node) = ctx.nodes().parent_node(parent_node.id())`
loop of `NoLoopFunc::run`: starting from the enclosing function, step to
each ancestor; stop silently at `Program`; emit the diagnostic (and stop)
at the first ancestor whose span contains `symbolSpan`. -/
def runWalk (ctx : LintContext) (symbolSpan functionSpan : Span) :
    Nat → Node → List Diagnostic
  | 0, _ => []
  | fuel + 1, parent_node =>
    match parentNode ctx parent_node.id with
    | none => []
    | some node =>
      if node.kind = .program then []
      else if node.span.lo ≤ symbolSpan.lo && symbolSpan.hi ≤ node.span.hi then
        [noLoopFuncDiagnostic functionSpan]
      else
        runWalk ctx symbolSpan functionSpan fuel node

/-- `NoLoopFunc::run` on one node: the diagnostics it emits.  Only
`IdentifierReference` nodes are inspected; the `println!` debug calls and
the unused `get_reference` read have no effect on the output. -/
def run (ctx : LintContext) (node : Node) : List Diagnostic :=
  match node.kind with
  | .identifierReference name =>
    match getFunction ctx ctx.nodes.length node with
    | none => []
    | some function =>
      let functionSpan := function.span
      match findBinding ctx node.scopeId name with
      | none => []
      | some symbol =>
        let symbolNode := getDeclaration ctx symbol
        let symbolSpan := (getNode ctx symbolNode).span
        runWalk ctx symbolSpan functionSpan ctx.nodes.length function
  | _ => []

/-- `NoLoopFunc::run` with the `LintContext` threaded through: the only
write the rule performs is `ctx.diagnostic(...)`, which appends to the
diagnostic sink. -/
def runCtx (ctx : LintContext) (node : Node) : LintContext :=
  { ctx with diagnostics := ctx.diagnostics ++ run ctx node }

/-- The lint driver invokes `run` on every node of the arena; the emitted
diagnostics are concatenated in node order. -/
def runAll (ctx : LintContext) : List Diagnostic :=
  ctx.nodes.foldr (fun n acc => run ctx n ++ acc) []

/-- Loop-statement kinds (for / for-in / for-of / while / do-while). -/
def isLoopKind : AstKind → Bool
  | .forStatement => true
  | .forInStatement => true
  | .forOfStatement => true
  | .whileStatement => true
  | .doWhileStatement => true
  | _ => false

/-- Arena for `function f() { var x; (function() { x; }) }` — a program with
no loop statement at all.  Symbol 0 is `x`, declared at node 4; node 10 is
the reference to `x` inside the inner function. -/
def ctxNoLoop : LintContext :=
  { nodes :=
      [ { id := 0, kind := .program, span := ⟨0, 44⟩, parent := none, scopeId := 0 }
      , { id := 1, kind := .function, span := ⟨0, 44⟩, parent := some 0, scopeId := 0 }
      , { id := 2, kind := .blockStatement, span := ⟨13, 44⟩, parent := some 1, scopeId := 0 }
      , { id := 3, kind := .variableDeclaration, span := ⟨15, 21⟩, parent := some 2, scopeId := 0 }
      , { id := 4, kind := .variableDeclarator, span := ⟨19, 20⟩, parent := some 3, scopeId := 0 }
      , { id := 5, kind := .expressionStatement, span := ⟨22, 42⟩, parent := some 2, scopeId := 0 }
      , { id := 6, kind := .parenthesizedExpression, span := ⟨22, 42⟩, parent := some 5, scopeId := 0 }
      , { id := 7, kind := .function, span := ⟨23, 41⟩, parent := some 6, scopeId := 0 }
      , { id := 8, kind := .blockStatement, span := ⟨35, 41⟩, parent := some 7, scopeId := 0 }
      , { id := 9, kind := .expressionStatement, span := ⟨36, 38⟩, parent := some 8, scopeId := 0 }
      , { id := 10, kind := .identifierReference "x", span := ⟨36, 37⟩, parent := some 9, scopeId := 0 }
      ]
    bindings := [(0, "x", 0)]
    declarations := [(0, 4)]
    diagnostics := [] }

/-- The reference node `x` of `ctxNoLoop`. -/
def refNoLoop : Node :=
  { id := 10, kind := .identifierReference "x", span := ⟨36, 37⟩, parent := some 9, scopeId := 0 }

/-- Arena for the rule's own `pass` test vector
`for (const i of {}) { (function() { i; }) }`.  Symbol 0 is the `const`
binding `i`, declared at node 3 inside the for-of head; node 11 is the
reference to `i` inside the function nested in the loop body. -/
def ctxConstOf : LintContext :=
  { nodes :=
      [ { id := 0, kind := .program, span := ⟨0, 43⟩, parent := none, scopeId := 0 }
      , { id := 1, kind := .forOfStatement, span := ⟨0, 43⟩, parent := some 0, scopeId := 0 }
      , { id := 2, kind := .variableDeclaration, span := ⟨5, 12⟩, parent := some 1, scopeId := 0 }
      , { id := 3, kind := .variableDeclarator, span := ⟨11, 12⟩, parent := some 2, scopeId := 0 }
      , { id := 4, kind := .other, span := ⟨16, 18⟩, parent := some 1, scopeId := 0 }
      , { id := 5, kind := .blockStatement, span := ⟨20, 43⟩, parent := some 1, scopeId := 0 }
      , { id := 6, kind := .expressionStatement, span := ⟨22, 41⟩, parent := some 5, scopeId := 0 }
      , { id := 7, kind := .parenthesizedExpression, span := ⟨22, 41⟩, parent := some 6, scopeId := 0 }
      , { id := 8, kind := .function, span := ⟨23, 40⟩, parent := some 7, scopeId := 0 }
      , { id := 9, kind := .blockStatement, span := ⟨34, 40⟩, parent := some 8, scopeId := 0 }
      , { id := 10, kind := .expressionStatement, span := ⟨36, 38⟩, parent := some 9, scopeId := 0 }
      , { id := 11, kind := .identifierReference "i", span := ⟨36, 37⟩, parent := some 10, scopeId := 0 }
      ]
    bindings := [(0, "i", 0)]
    declarations := [(0, 3)]
    diagnostics := [] }

/-- The reference node `i` of `ctxConstOf`. -/
def refConstOf : Node :=
  { id := 11, kind := .identifierReference "i", span := ⟨36, 37⟩, parent := some 10, scopeId := 0 }

/-- Arena for `for (var i=0; i<l; i++) { (function() { i; i; }) }` — one
function (node 12) containing two references to the shared `var` binding
`i` (nodes 15 and 17).  Symbol 0 is `i`, declared at node 3; `l` is
unresolved. -/
def ctxTwoRefs : LintContext :=
  { nodes :=
      [ { id := 0, kind := .program, span := ⟨0, 50⟩, parent := none, scopeId := 0 }
      , { id := 1, kind := .forStatement, span := ⟨0, 50⟩, parent := some 0, scopeId := 0 }
      , { id := 2, kind := .variableDeclaration, span := ⟨5, 12⟩, parent := some 1, scopeId := 0 }
      , { id := 3, kind := .variableDeclarator, span := ⟨9, 12⟩, parent := some 2, scopeId := 0 }
      , { id := 4, kind := .other, span := ⟨14, 17⟩, parent := some 1, scopeId := 0 }
      , { id := 5, kind := .identifierReference "i", span := ⟨14, 15⟩, parent := some 4, scopeId := 0 }
      , { id := 6, kind := .identifierReference "l", span := ⟨16, 17⟩, parent := some 4, scopeId := 0 }
      , { id := 7, kind := .other, span := ⟨19, 22⟩, parent := some 1, scopeId := 0 }
      , { id := 8, kind := .identifierReference "i", span := ⟨19, 20⟩, parent := some 7, scopeId := 0 }
      , { id := 9, kind := .blockStatement, span := ⟨24, 50⟩, parent := some 1, scopeId := 0 }
      , { id := 10, kind := .expressionStatement, span := ⟨26, 48⟩, parent := some 9, scopeId := 0 }
      , { id := 11, kind := .parenthesizedExpression, span := ⟨26, 48⟩, parent := some 10, scopeId := 0 }
      , { id := 12, kind := .function, span := ⟨27, 47⟩, parent := some 11, scopeId := 0 }
      , { id := 13, kind := .blockStatement, span := ⟨38, 47⟩, parent := some 12, scopeId := 0 }
      , { id := 14, kind := .expressionStatement, span := ⟨40, 42⟩, parent := some 13, scopeId := 0 }
      , { id := 15, kind := .identifierReference "i", span := ⟨40, 41⟩, parent := some 14, scopeId := 0 }
      , { id := 16, kind := .expressionStatement, span := ⟨43, 45⟩, parent := some 13, scopeId := 0 }
      , { id := 17, kind := .identifierReference "i", span := ⟨43, 44⟩, parent := some 16, scopeId := 0 }
      ]
    bindings := [(0, "i", 0)]
    declarations := [(0, 3)]
    diagnostics := [] }

/-- Arena for `(() => { x; }); var x;` — the reference `x` (node 6) sits
inside an arrow function; no ordinary function encloses it. -/
def ctxArrowOnly : LintContext :=
  { nodes :=
      [ { id := 0, kind := .program, span := ⟨0, 22⟩, parent := none, scopeId := 0 }
      , { id := 1, kind := .expressionStatement, span := ⟨0, 15⟩, parent := some 0, scopeId := 0 }
      , { id := 2, kind := .parenthesizedExpression, span := ⟨0, 15⟩, parent := some 1, scopeId := 0 }
      , { id := 3, kind := .arrowFunctionExpression, span := ⟨1, 14⟩, parent := some 2, scopeId := 0 }
      , { id := 4, kind := .blockStatement, span := ⟨7, 14⟩, parent := some 3, scopeId := 0 }
      , { id := 5, kind := .expressionStatement, span := ⟨9, 12⟩, parent := some 4, scopeId := 0 }
      , { id := 6, kind := .identifierReference "x", span := ⟨9, 10⟩, parent := some 5, scopeId := 0 }
      , { id := 7, kind := .variableDeclaration, span := ⟨16, 22⟩, parent := some 0, scopeId := 0 }
      , { id := 8, kind := .variableDeclarator, span := ⟨20, 21⟩, parent := some 7, scopeId := 0 }
      ]
    bindings := [(0, "x", 0)]
    declarations := [(0, 8)]
    diagnostics := [] }

/-- The reference node `x` of `ctxArrowOnly`. -/
def refArrowOnly : Node :=
  { id := 6, kind := .identifierReference "x", span := ⟨9, 10⟩, parent := some 5, scopeId := 0 }

end NoLoopFunc

namespace StaticProp

/-- Modelled from the spec: the slice of the symbol/reference table the
rewriter touches — each reference's stored resolved-symbol id
(`Reference::symbol_id`, `none` when unresolved) and each symbol's set of
resolved references, as association lists keyed by id. -/
structure SymbolTable where
  refSymbols : List (Nat × Option Nat)
  resolvedRefs : List (Nat × List Nat)
  deriving DecidableEq, Repr

/-- Modelled from the spec: `symbols().get_reference(id).symbol_id()`. -/
def getReferenceSymbolId (t : SymbolTable) (rid : Nat) : Option Nat :=
  match t.refSymbols.find? (fun p => p.1 == rid) with
  | some p => p.2
  | none => none

/-- Modelled from the spec: `get_reference_mut(id).set_symbol_id(sym)` —
sets the reference's stored resolved-symbol id, leaving the per-symbol
reference sets untouched. -/
def setSymbolId (t : SymbolTable) (rid sym : Nat) : SymbolTable :=
  { t with refSymbols := (rid, some sym) :: t.refSymbols.filter (fun p => p.1 != rid) }

/-- The reference set of a symbol. -/
def symbolRefs (t : SymbolTable) (sym : Nat) : List Nat :=
  ((t.resolvedRefs.find? (fun p => p.1 == sym)).map (fun p => p.2)).getD []

/-- Replace a symbol's reference set, leaving every reference's stored
symbol id untouched. -/
def setSymbolRefs (t : SymbolTable) (sym : Nat) (l : List Nat) : SymbolTable :=
  { t with resolvedRefs := (sym, l) :: t.resolvedRefs.filter (fun p => p.1 != sym) }

/-- Modelled from the spec: `delete_resolved_reference(sym, rid)` — removes
the reference from the symbol's reference set. -/
def deleteResolvedReference (t : SymbolTable) (sym rid : Nat) : SymbolTable :=
  setSymbolRefs t sym ((symbolRefs t sym).filter (fun r => r != rid))

/-- Modelled from the spec: `add_resolved_reference(sym, rid)` — adds the
reference to the symbol's reference set. -/
def addResolvedReference (t : SymbolTable) (sym rid : Nat) : SymbolTable :=
  setSymbolRefs t sym (symbolRefs t sym ++ [rid])

/-- The expression/class-element shapes `StaticInitializerVisitor`
distinguishes.  Child statement/expression sequences are encoded as
right-nested `seqE` chains ending in `emptyE`; a property or accessor
without a value gets its own constructor (the source tests
`if let Some(value)`).  `deleteE` is a `UnaryExpression` with operator
`delete`; every node the visitor walks through without special treatment is
`otherE`/`seqE`. The private-field forms the visitor hands to the external
private-field transform are outside this model. -/
inductive Expr where
  | thisE (span : Nat)
  | deleteE (span : Nat) (arg : Expr)
  | boolLit (span : Nat) (val : Bool)
  | identRef (rid : Nat) (span : Nat) (name : String)
  | funcE (body : Expr)
  | arrowE (body : Expr)
  | staticBlockE (body : Expr)
  | moduleBlockE (body : Expr)
  | propDefE (computed : Bool) (key : Expr) (value : Expr)
  | propDefNoValueE (computed : Bool) (key : Expr)
  | accessorPropE (computed : Bool) (key : Expr) (value : Expr)
  | accessorPropNoValueE (computed : Bool) (key : Expr)
  | seqE (first rest : Expr)
  | emptyE
  | otherE (child : Expr)
  deriving DecidableEq, Repr

/-- A `BoundIdentifier`: the temp binding's name and symbol id. -/
structure TempBinding where
  name : String
  symbolId : Nat
  deriving DecidableEq, Repr

/-- The visitor's state: the fields of `StaticInitializerVisitor` /
`ClassBindings` the claims concern (`this_depth` is passed explicitly to
the visit functions), plus the shared symbol table and fresh-id counters. -/
structure VState where
  classNameSymbolId : Option Nat
  classHasNameOrPrivateProps : Bool
  tempBinding : Option TempBinding
  nextSymbolId : Nat
  nextRefId : Nat
  table : SymbolTable
  deriving DecidableEq, Repr

/-- Modelled from the spec: `get_temp_binding` /
`ClassBindings::get_or_init_temp_binding` — the lazily created, memoized
temp binding: return the stored binding if present, otherwise synthesize a
fresh symbol (deterministic collision-free name), store and return it. -/
def getTempBinding (s : VState) : VState × TempBinding :=
  match s.tempBinding with
  | some tb => (s, tb)
  | none =>
    let tb : TempBinding := { name := "_Class", symbolId := s.nextSymbolId }
    ({ s with tempBinding := some tb, nextSymbolId := s.nextSymbolId + 1 }, tb)

/-- Modelled from the spec: `BoundIdentifier::create_spanned_read_expression`
— a read of the temp binding: a fresh identifier reference carrying the
binding's name, registered in the table as resolving to the binding's
symbol. -/
def createSpannedReadExpression (s : VState) (tb : TempBinding) (span : Nat) :
    VState × Expr :=
  let rid := s.nextRefId
  ({ s with
      nextRefId := rid + 1
      table := addResolvedReference (setSymbolId s.table rid tb.symbolId) tb.symbolId rid },
   Expr.identRef rid span tb.name)

/-- `replace_this_with_temp_var`: when `this_depth == 0`, replace the
expression by a read of the class temp binding (created on first use);
otherwise do nothing. -/
def replaceThisWithTempVar (s : VState) (depth : Nat) (e : Expr) (span : Nat) :
    VState × Expr :=
  if depth == 0 then
    let p := getTempBinding s
    createSpannedReadExpression p.1 p.2 span
  else (s, e)

/-- `replace_delete_this_with_true`: when `this_depth == 0`, replace the
expression by the boolean literal `true`; otherwise do nothing. -/
def replaceDeleteThisWithTrue (s : VState) (depth : Nat) (e : Expr) (span : Nat) :
    VState × Expr :=
  if depth == 0 then (s, Expr.boolLit span true) else (s, e)

/-- The three table updates of `replace_class_name_with_temp_var` (lines
332–335 of the source), in source order: set the reference's stored symbol
id to the temp symbol, delete it from the old symbol's reference set, add
it to the temp symbol's reference set. -/
def redirectReferenceTable (t : SymbolTable) (rid oldSym newSym : Nat) : SymbolTable :=
  addResolvedReference (deleteResolvedReference (setSymbolId t rid newSym) oldSym rid) newSym rid

/-- `replace_class_name_with_temp_var`: if the class has a name symbol and
the identifier's reference resolves to exactly that symbol, rename the
identifier to the temp binding's name and redirect the reference in the
table; otherwise leave everything untouched. -/
def replaceClassNameWithTempVar (s : VState) (rid span : Nat) (name : String) :
    VState × Expr :=
  match s.classNameSymbolId with
  | none => (s, Expr.identRef rid span name)
  | some classNameSymbolId =>
    match getReferenceSymbolId s.table rid with
    | none => (s, Expr.identRef rid span name)
    | some symbolId =>
      if symbolId != classNameSymbolId then (s, Expr.identRef rid span name)
      else
        let p := getTempBinding s
        ({ p.1 with table := redirectReferenceTable p.1.table rid symbolId p.2.symbolId },
         Expr.identRef rid span p.2.name)

/-- The `VisitMut` traversal of `StaticInitializerVisitor`, with
`this_depth` as the `depth` argument:

* `visit_expression`: `this` → `replace_this_with_temp_var` (then return);
  `delete this` → `replace_delete_this_with_true` (then return); everything
  else falls through to the walk of its children.
* `visit_identifier_reference`: `replace_class_name_with_temp_var`.
* `visit_function` / `visit_static_block` / `visit_ts_module_block`: when
  the class has a name or private props, walk the body at `depth + 1`;
  otherwise skip the node entirely.  Arrow functions have no override, so
  their body is walked at the current depth.
* `visit_property_definition` / `visit_accessor_property`: visit a computed
  key at the current depth; visit the value (when present and the class has
  a name or private props) at `depth + 1`. -/
def visitExpr (s : VState) (depth : Nat) : Expr → VState × Expr
  | .thisE span => replaceThisWithTempVar s depth (.thisE span) span
  | .deleteE span arg =>
    match arg with
    | .thisE sp2 => replaceDeleteThisWithTrue s depth (.deleteE span (.thisE sp2)) span
    | _ =>
      let p := visitExpr s depth arg
      (p.1, .deleteE span p.2)
  | .boolLit span v => (s, .boolLit span v)
  | .identRef rid span name => replaceClassNameWithTempVar s rid span name
  | .funcE body =>
    if s.classHasNameOrPrivateProps then
      let p := visitExpr s (depth + 1) body
      (p.1, .funcE p.2)
    else (s, .funcE body)
  | .arrowE body =>
    let p := visitExpr s depth body
    (p.1, .arrowE p.2)
  | .staticBlockE body =>
    if s.classHasNameOrPrivateProps then
      let p := visitExpr s (depth + 1) body
      (p.1, .staticBlockE p.2)
    else (s, .staticBlockE body)
  | .moduleBlockE body =>
    if s.classHasNameOrPrivateProps then
      let p := visitExpr s (depth + 1) body
      (p.1, .moduleBlockE p.2)
    else (s, .moduleBlockE body)
  | .propDefE computed key value =>
    let pk := if computed then visitExpr s depth key else (s, key)
    if pk.1.classHasNameOrPrivateProps then
      let pv := visitExpr pk.1 (depth + 1) value
      (pv.1, .propDefE computed pk.2 pv.2)
    else (pk.1, .propDefE computed pk.2 value)
  | .propDefNoValueE computed key =>
    let pk := if computed then visitExpr s depth key else (s, key)
    (pk.1, .propDefNoValueE computed pk.2)
  | .accessorPropE computed key value =>
    let pk := if computed then visitExpr s depth key else (s, key)
    if pk.1.classHasNameOrPrivateProps then
      let pv := visitExpr pk.1 (depth + 1) value
      (pv.1, .accessorPropE computed pk.2 pv.2)
    else (pk.1, .accessorPropE computed pk.2 value)
  | .accessorPropNoValueE computed key =>
    let pk := if computed then visitExpr s depth key else (s, key)
    (pk.1, .accessorPropNoValueE computed pk.2)
  | .seqE first rest =>
    let p := visitExpr s depth first
    let q := visitExpr p.1 depth rest
    (q.1, .seqE p.2 q.2)
  | .emptyE => (s, .emptyE)
  | .otherE child =>
    let p := visitExpr s depth child
    (p.1, .otherE p.2)

/-- `transform_static_initializer`: run the visitor over one static
initializer expression starting at `this_depth = 0`. -/
def transformStaticInitializer (s : VState) (value : Expr) : VState × Expr :=
  visitExpr s 0 value

/-- Visitor state for `class C { static getSelf = () => this; }`: the class
has a name (symbol 0), so `class_has_name_or_private_props` is true; no
temp binding exists yet; the initializer expression `() => this` uses no
pre-existing references. -/
def stateGetSelf : VState :=
  { classNameSymbolId := some 0
    classHasNameOrPrivateProps := true
    tempBinding := none
    nextSymbolId := 1
    nextRefId := 0
    table := { refSymbols := [], resolvedRefs := [] } }

/-- A table in which reference 0 resolves to symbol 1 (the class-name
symbol) and sits in symbol 1's reference set; symbol 2 (the temp symbol)
has an empty reference set. -/
def exampleTable : SymbolTable :=
  { refSymbols := [(0, some 1)], resolvedRefs := [(1, [0]), (2, [])] }

/-- The table state reached after the first two of the three steps of
`replace_class_name_with_temp_var` (after `set_symbol_id` and
`delete_resolved_reference`, before `add_resolved_reference`), redirecting
reference 0 from symbol 1 to symbol 2 in `exampleTable`. -/
def midTable : SymbolTable :=
  deleteResolvedReference (setSymbolId exampleTable 0 2) 1 0

/-- Visitor state with class-name symbol 3, an already-created temp binding
`_C` (symbol 9), and a table in which reference 7 resolves to the
class-name symbol. -/
def witnessState : VState :=
  { classNameSymbolId := some 3
    classHasNameOrPrivateProps := true
    tempBinding := some { name := "_C", symbolId := 9 }
    nextSymbolId := 10
    nextRefId := 20
    table := { refSymbols := [(7, some 3)], resolvedRefs := [(3, [7])] } }

end StaticProp

namespace NoLoopFunc

/-- Claim C9: running the analyzer leaves the node store, the binding
table, and the declaration table unchanged; its only effect is appending
the emitted diagnostics to the diagnostic sink. -/
theorem runLeavesTablesUnchanged (ctx : LintContext) (node : Node) :
    (runCtx ctx node).nodes = ctx.nodes
    ∧ (runCtx ctx node).bindings = ctx.bindings
    ∧ (runCtx ctx node).declarations = ctx.declarations
    ∧ (runCtx ctx node).diagnostics = ctx.diagnostics ++ run ctx node :=
  ⟨rfl, rfl, rfl, rfl⟩

/-- Claim C1 (failing input): in the loop-free program
`function f() { var x; (function() { x; }) }` no node is a loop statement,
yet `NoLoopFunc::run` emits a diagnostic for the inner function, because
the ancestor walk tests only span containment and never the ancestor's
kind — the containing `BlockStatement` of `f` triggers the report. -/
theorem loopFreeProgramFlagged :
    (∀ n ∈ ctxNoLoop.nodes, isLoopKind n.kind = false)
    ∧ run ctxNoLoop refNoLoop = [noLoopFuncDiagnostic ⟨23, 41⟩] := by decide

/-- Claim C5 (failing input): on the rule's own `pass` test vector
`for (const i of {}) { (function() { i; }) }` the implementation emits a
diagnostic — the `const` exemption is absent, the for-of statement's span
contains the declarator of `i`, so the reference inside the nested
function is reported. -/
theorem constOfLoopFlagged :
    run ctxConstOf refConstOf = [noLoopFuncDiagnostic ⟨23, 40⟩] := by decide

/-- Claim C4 (failing input): on
`for (var i=0; i<l; i++) { (function() { i; i; }) }` the implementation
emits two diagnostics for the single offending function (one per
reference), and the message is the fixed template that never names the
unsafe variables. -/
theorem twoDiagnosticsOneFunction :
    runAll ctxTwoRefs
      = [noLoopFuncDiagnostic ⟨27, 47⟩, noLoopFuncDiagnostic ⟨27, 47⟩]
    ∧ (noLoopFuncDiagnostic ⟨27, 47⟩).message
      = "Function declared in a loop contains unsafe references to variable(s) \x7b\x7b varNames \x7d\x7d." := by
  decide

/-- Helper for claim C10: if no node of the ancestor-or-self chain is an
ordinary function, `get_function` returns `none`. -/
theorem getFunction_none_of_no_function_ancestor (ctx : LintContext) :
    ∀ (fuel : Nat) (n : Node),
      (∀ a ∈ ancestorChain ctx fuel n, ¬ a.kind = .function) →
      getFunction ctx fuel n = none := by
  intro fuel
  induction fuel with
  | zero => intro n _; rfl
  | succ k ih =>
    intro n h
    have hn : ¬ n.kind = .function := by
      apply h
      simp [ancestorChain]
    show (if n.kind = .function then some n
          else match parentNode ctx n.id with
               | none => none
               | some p => getFunction ctx k p) = none
    rw [if_neg hn]
    cases hp : parentNode ctx n.id with
    | none => rfl
    | some p =>
      apply ih
      intro a ha
      apply h
      simp [ancestorChain, hp]
      right
      exact ha

/-- Claim C10: for a reference whose ancestor chain contains no ordinary
function node (in particular when every enclosing function-like ancestor
is an arrow function expression), `get_function` returns `none` and
`NoLoopFunc::run` emits no diagnostic. -/
theorem arrowOnlyNoDiagnostic (ctx : LintContext) (node : Node)
    (h : ∀ a ∈ ancestorChain ctx ctx.nodes.length node, ¬ a.kind = .function) :
    getFunction ctx ctx.nodes.length node = none ∧ run ctx node = [] := by
  have hgf := getFunction_none_of_no_function_ancestor ctx ctx.nodes.length node h
  refine ⟨hgf, ?_⟩
  cases hk : node.kind <;> simp [run, hk, hgf]

/-- Witness for claim C10 on `(() => { x; }); var x;`: the reference `x`
sits only inside an arrow function, so no function is found and nothing is
reported. -/
theorem arrowOnlyWitness :
    getFunction ctxArrowOnly ctxArrowOnly.nodes.length refArrowOnly = none
    ∧ run ctxArrowOnly refArrowOnly = [] :=
  arrowOnlyNoDiagnostic ctxArrowOnly refArrowOnly (by decide)

end NoLoopFunc

namespace StaticProp

/-- Key-filtered association lists keep their lookups for other keys. -/
theorem find?_filter_key {α : Type} (l : List (Nat × α)) (k j : Nat) (h : ¬ j = k) :
    (l.filter (fun p => p.1 != k)).find? (fun p => p.1 == j)
      = l.find? (fun p => p.1 == j) := by
  induction l with
  | nil => rfl
  | cons a tl ih =>
    by_cases h1 : a.1 = k
    · have hq : (a.1 != k) = false := by simp [h1]
      have hp : (a.1 == j) = false := by simp [h1]; omega
      simp [List.filter_cons, hq, List.find?_cons, hp, ih]
    · by_cases h2 : a.1 = j
      · have hq : (a.1 != k) = true := by simp [h1]
        have hp : (a.1 == j) = true := by simp [h2]
        simp [List.filter_cons, hq, List.find?_cons, hp]
      · have hq : (a.1 != k) = true := by simp [h1]
        have hp : (a.1 == j) = false := by simp [h2]
        simp [List.filter_cons, hq, List.find?_cons, hp, ih]

/-- Setting a reference's symbol id makes the reference resolve to it. -/
theorem getRef_setSymbolId_self (t : SymbolTable) (rid sym : Nat) :
    getReferenceSymbolId (setSymbolId t rid sym) rid = some sym := by
  simp [getReferenceSymbolId, setSymbolId]

/-- Updating a symbol's reference set leaves every stored symbol id. -/
theorem getRef_setSymbolRefs (t : SymbolTable) (sym rid : Nat) (l : List Nat) :
    getReferenceSymbolId (setSymbolRefs t sym l) rid = getReferenceSymbolId t rid := rfl

/-- Reading back the reference set just written. -/
theorem symbolRefs_setSymbolRefs_self (t : SymbolTable) (sym : Nat) (l : List Nat) :
    symbolRefs (setSymbolRefs t sym l) sym = l := by
  simp [symbolRefs, setSymbolRefs]

/-- Updating one symbol's reference set leaves every other symbol's set. -/
theorem symbolRefs_setSymbolRefs_other (t : SymbolTable) (sym j : Nat) (l : List Nat)
    (h : ¬ j = sym) :
    symbolRefs (setSymbolRefs t sym l) j = symbolRefs t j := by
  have hne : (sym == j) = false := by simp; omega
  simp [symbolRefs, setSymbolRefs, List.find?_cons, hne, find?_filter_key _ _ _ h]

/-- Setting a reference's symbol id leaves every reference set. -/
theorem symbolRefs_setSymbolId (t : SymbolTable) (rid sym j : Nat) :
    symbolRefs (setSymbolId t rid sym) j = symbolRefs t j := rfl

/-- Fetching the temp binding never changes the symbol table. -/
theorem getTempBinding_table (s : VState) : (getTempBinding s).1.table = s.table := by
  cases h : s.tempBinding <;> simp [getTempBinding, h]

/-- Fetching the temp binding never changes the next reference id. -/
theorem getTempBinding_nextRefId (s : VState) :
    (getTempBinding s).1.nextRefId = s.nextRefId := by
  cases h : s.tempBinding <;> simp [getTempBinding, h]

/-- Memoization: an already-created temp binding is returned as is. -/
theorem getTempBinding_of_some (s : VState) (tb : TempBinding) (h : s.tempBinding = some tb) :
    getTempBinding s = (s, tb) := by
  simp [getTempBinding, h]

/-- After the full redirect sequence the reference's stored symbol id is
the new symbol. -/
theorem redirect_getRef (t : SymbolTable) (rid oldSym newSym : Nat) :
    getReferenceSymbolId (redirectReferenceTable t rid oldSym newSym) rid = some newSym := by
  unfold redirectReferenceTable addResolvedReference deleteResolvedReference
  rw [getRef_setSymbolRefs, getRef_setSymbolRefs, getRef_setSymbolId_self]

/-- After the full redirect sequence the new symbol's reference set holds
the reference. -/
theorem redirect_mem (t : SymbolTable) (rid oldSym newSym : Nat) :
    rid ∈ symbolRefs (redirectReferenceTable t rid oldSym newSym) newSym := by
  unfold redirectReferenceTable addResolvedReference
  rw [symbolRefs_setSymbolRefs_self]
  simp

/-- After the full redirect sequence the old symbol's reference set no
longer holds the reference. -/
theorem redirect_not_mem (t : SymbolTable) (rid oldSym newSym : Nat)
    (hne : ¬ newSym = oldSym) :
    rid ∉ symbolRefs (redirectReferenceTable t rid oldSym newSym) oldSym := by
  unfold redirectReferenceTable addResolvedReference deleteResolvedReference
  rw [symbolRefs_setSymbolRefs_other _ _ _ _ (fun hh => hne hh.symm),
    symbolRefs_setSymbolRefs_self]
  simp [List.mem_filter]

/-- Claim C2 (counterexample to the transient part): in `exampleTable`
reference 0 resolves to symbol 1 and sits in symbol 1's reference set, yet
after the first two of the three update steps of
`replace_class_name_with_temp_var` — that is, in the transient state
`midTable` between `delete_resolved_reference` and
`add_resolved_reference` — reference 0 is registered in neither symbol 1's
nor symbol 2's reference set. -/
theorem transientUnregistered :
    getReferenceSymbolId exampleTable 0 = some 1
    ∧ 0 ∈ symbolRefs exampleTable 1
    ∧ 0 ∉ symbolRefs midTable 1
    ∧ 0 ∉ symbolRefs midTable 2 := by decide

/-- Claim C2 (amended): for a reference that resolves to the class-name
symbol, after `replace_class_name_with_temp_var` completes the reference's
stored symbol id is the temp symbol's, the temp symbol's reference set
contains it, and the class-name symbol's reference set no longer contains
it; the final state is consistent (the transient in-neither-set state
shown in `transientUnregistered` exists only between the internal update
steps). -/
theorem redirectMovesReference (s : VState) (rid sp : Nat) (nm : String) (c : Nat)
    (hc : s.classNameSymbolId = some c)
    (hres : getReferenceSymbolId s.table rid = some c)
    (hfresh : ¬ (getTempBinding s).2.symbolId = c) :
    getReferenceSymbolId (replaceClassNameWithTempVar s rid sp nm).1.table rid
        = some (getTempBinding s).2.symbolId
    ∧ rid ∈ symbolRefs (replaceClassNameWithTempVar s rid sp nm).1.table
        (getTempBinding s).2.symbolId
    ∧ rid ∉ symbolRefs (replaceClassNameWithTempVar s rid sp nm).1.table c := by
  have hstate : (replaceClassNameWithTempVar s rid sp nm).1.table
      = redirectReferenceTable s.table rid c (getTempBinding s).2.symbolId := by
    unfold replaceClassNameWithTempVar
    simp only [hc, hres]
    simp [getTempBinding_table]
  rw [hstate]
  exact ⟨redirect_getRef _ _ _ _, redirect_mem _ _ _ _, redirect_not_mem _ _ _ _ hfresh⟩

/-- Witness for claim C2 at `witnessState`: reference 7, resolved to
class-name symbol 3, ends up stored on and registered under temp symbol 9
only. -/
theorem redirectMovesReferenceWitness :
    getReferenceSymbolId (replaceClassNameWithTempVar witnessState 7 5 "C").1.table 7 = some 9
    ∧ 7 ∈ symbolRefs (replaceClassNameWithTempVar witnessState 7 5 "C").1.table 9
    ∧ 7 ∉ symbolRefs (replaceClassNameWithTempVar witnessState 7 5 "C").1.table 3 :=
  redirectMovesReference witnessState 7 5 "C" 3 rfl rfl (by decide)

/-- Claim C3: a `this` expression is replaced by a read of the class's
temp binding, and `delete this` by the literal `true`, exactly when
`this_depth` is 0 at the point of visit; at any positive depth both are
left unchanged (state included). -/
theorem thisRewriteIffDepthZero (s : VState) (d sp sp2 : Nat) :
    (d = 0 →
      (visitExpr s d (.thisE sp)).2
          = .identRef s.nextRefId sp (getTempBinding s).2.name
      ∧ getReferenceSymbolId (visitExpr s d (.thisE sp)).1.table s.nextRefId
          = some (getTempBinding s).2.symbolId
      ∧ (visitExpr s d (.deleteE sp (.thisE sp2))).2 = .boolLit sp true)
  ∧ (¬ d = 0 →
      visitExpr s d (.thisE sp) = (s, .thisE sp)
      ∧ visitExpr s d (.deleteE sp (.thisE sp2)) = (s, .deleteE sp (.thisE sp2))) := by
  constructor
  · intro hd
    subst hd
    refine ⟨?_, ?_, rfl⟩
    · simp [visitExpr, replaceThisWithTempVar, createSpannedReadExpression,
        getTempBinding_nextRefId]
    · simp [visitExpr, replaceThisWithTempVar, createSpannedReadExpression,
        getTempBinding_nextRefId, addResolvedReference, getRef_setSymbolRefs,
        getRef_setSymbolId_self]
  · intro hd
    have hb : (d == 0) = false := by simp [hd]
    constructor
    · simp [visitExpr, replaceThisWithTempVar, hb]
    · simp [visitExpr, replaceDeleteThisWithTrue, hb]

/-- Witness for claim C3 at `witnessState`: at depth 0 `this` becomes a
read (reference 20) of temp symbol 9 and `delete this` becomes `true`; at
depth 1 both stay untouched. -/
theorem thisRewriteWitness :
    (visitExpr witnessState 0 (.thisE 5)).2 = .identRef 20 5 "_C"
    ∧ getReferenceSymbolId (visitExpr witnessState 0 (.thisE 5)).1.table 20 = some 9
    ∧ (visitExpr witnessState 0 (.deleteE 7 (.thisE 5))).2 = .boolLit 7 true
    ∧ visitExpr witnessState 1 (.thisE 5) = (witnessState, .thisE 5)
    ∧ visitExpr witnessState 1 (.deleteE 7 (.thisE 5))
        = (witnessState, .deleteE 7 (.thisE 5)) := by
  refine ⟨?_, ?_, ?_, ?_, ?_⟩
  · exact ((thisRewriteIffDepthZero witnessState 0 5 5).1 rfl).1
  · exact ((thisRewriteIffDepthZero witnessState 0 5 5).1 rfl).2.1
  · exact ((thisRewriteIffDepthZero witnessState 0 7 5).1 rfl).2.2
  · exact ((thisRewriteIffDepthZero witnessState 1 5 5).2 (by decide)).1
  · exact ((thisRewriteIffDepthZero witnessState 1 7 5).2 (by decide)).2

/-- Claim C6: visiting an identifier reference is independent of
`this_depth`; a reference resolving to the class's name symbol is renamed
to the temp binding's name and its stored symbol id redirected to the temp
symbol, while a reference that is unresolved or resolves to any other
symbol (or a class with no name symbol) is left completely untouched. -/
theorem classNameRedirectAnyDepth (s : VState) (d dd rid sp : Nat) (nm : String) :
    visitExpr s d (.identRef rid sp nm) = visitExpr s dd (.identRef rid sp nm)
  ∧ (∀ c, s.classNameSymbolId = some c → getReferenceSymbolId s.table rid = some c →
      (visitExpr s d (.identRef rid sp nm)).2 = .identRef rid sp (getTempBinding s).2.name
      ∧ getReferenceSymbolId (visitExpr s d (.identRef rid sp nm)).1.table rid
          = some (getTempBinding s).2.symbolId)
  ∧ ((∀ c, s.classNameSymbolId = some c → ¬ getReferenceSymbolId s.table rid = some c) →
      visitExpr s d (.identRef rid sp nm) = (s, .identRef rid sp nm)) := by
  refine ⟨rfl, ?_, ?_⟩
  · intro c hc hres
    have hstate : (visitExpr s d (.identRef rid sp nm)).1.table
        = redirectReferenceTable s.table rid c (getTempBinding s).2.symbolId := by
      simp only [visitExpr]
      unfold replaceClassNameWithTempVar
      simp only [hc, hres]
      simp [getTempBinding_table]
    have hexpr : (visitExpr s d (.identRef rid sp nm)).2
        = .identRef rid sp (getTempBinding s).2.name := by
      simp only [visitExpr]
      unfold replaceClassNameWithTempVar
      simp only [hc, hres]
      simp
    exact ⟨hexpr, by rw [hstate]; exact redirect_getRef _ _ _ _⟩
  · intro hno
    simp only [visitExpr]
    unfold replaceClassNameWithTempVar
    cases hcn : s.classNameSymbolId with
    | none => rfl
    | some c =>
      cases hr : getReferenceSymbolId s.table rid with
      | none => rfl
      | some sym =>
        have hne : ¬ sym = c := fun he => hno c hcn (he ▸ hr)
        have hb : (sym != c) = true := by simp [hne]
        simp [hb]

/-- Witness for claim C6 at `witnessState` and depth 3: reference 7
(resolved to class-name symbol 3) is redirected to temp symbol 9, while
the unresolved reference 12 is untouched. -/
theorem classNameRedirectWitness :
    (visitExpr witnessState 3 (.identRef 7 5 "C")).2 = .identRef 7 5 "_C"
    ∧ getReferenceSymbolId (visitExpr witnessState 3 (.identRef 7 5 "C")).1.table 7 = some 9
    ∧ visitExpr witnessState 3 (.identRef 12 5 "x") = (witnessState, .identRef 12 5 "x") := by
  refine ⟨?_, ?_, ?_⟩
  · exact ((classNameRedirectAnyDepth witnessState 3 0 7 5 "C").2.1 3 rfl rfl).1
  · exact ((classNameRedirectAnyDepth witnessState 3 0 7 5 "C").2.1 3 rfl rfl).2
  · exact (classNameRedirectAnyDepth witnessState 3 0 12 5 "x").2.2
      (by
        intro c hc
        rw [show witnessState.classNameSymbolId = some 3 from rfl] at hc
        injection hc with h3
        subst h3
        decide)

/-- Reading a temp binding leaves the stored binding untouched. -/
theorem createSpannedReadExpression_tempBinding (s : VState) (tb : TempBinding) (sp : Nat) :
    (createSpannedReadExpression s tb sp).1.tempBinding = s.tempBinding := rfl

/-- Rewriting `this` never replaces an existing temp binding. -/
theorem replaceThisWithTempVar_tempBinding (s : VState) (d : Nat) (e : Expr) (sp : Nat)
    (tb : TempBinding) (h : s.tempBinding = some tb) :
    (replaceThisWithTempVar s d e sp).1.tempBinding = some tb := by
  unfold replaceThisWithTempVar
  split
  · rw [getTempBinding_of_some s tb h]
    simp [createSpannedReadExpression, h]
  · exact h

/-- Redirecting a class-name reference never replaces an existing temp
binding. -/
theorem replaceClassNameWithTempVar_tempBinding (s : VState) (rid sp : Nat) (nm : String)
    (tb : TempBinding) (h : s.tempBinding = some tb) :
    (replaceClassNameWithTempVar s rid sp nm).1.tempBinding = some tb := by
  unfold replaceClassNameWithTempVar
  cases hcn : s.classNameSymbolId with
  | none => exact h
  | some c =>
    cases hr : getReferenceSymbolId s.table rid with
    | none => exact h
    | some sym =>
      simp only []
      split
      · exact h
      · rw [getTempBinding_of_some s tb h]
        exact h

/-- An existing temp binding survives any visit unchanged. -/
theorem visitExpr_tempBinding_mono (e : Expr) :
    ∀ (s : VState) (d : Nat) (tb : TempBinding), s.tempBinding = some tb →
      (visitExpr s d e).1.tempBinding = some tb := by
  induction e with
  | thisE sp =>
    intro s d tb h
    exact replaceThisWithTempVar_tempBinding s d _ sp tb h
  | deleteE sp arg ih =>
    intro s d tb h
    cases arg
    case thisE sp2 =>
      simp only [visitExpr, replaceDeleteThisWithTrue]
      split
      · exact h
      · exact h
    all_goals
      simp only [visitExpr]
      exact ih s d tb h
  | boolLit sp v => intro s d tb h; exact h
  | identRef rid sp nm =>
    intro s d tb h
    exact replaceClassNameWithTempVar_tempBinding s rid sp nm tb h
  | funcE body ih =>
    intro s d tb h
    simp only [visitExpr]
    split
    · exact ih s (d + 1) tb h
    · exact h
  | arrowE body ih =>
    intro s d tb h
    exact ih s d tb h
  | staticBlockE body ih =>
    intro s d tb h
    simp only [visitExpr]
    split
    · exact ih s (d + 1) tb h
    · exact h
  | moduleBlockE body ih =>
    intro s d tb h
    simp only [visitExpr]
    split
    · exact ih s (d + 1) tb h
    · exact h
  | propDefE c k v ihk ihv =>
    intro s d tb h
    simp only [visitExpr]
    by_cases hc : c = true
    · rw [if_pos hc]
      split
      · exact ihv _ (d + 1) tb (ihk s d tb h)
      · exact ihk s d tb h
    · rw [if_neg hc]
      split
      · exact ihv _ (d + 1) tb h
      · exact h
  | propDefNoValueE c k ihk =>
    intro s d tb h
    simp only [visitExpr]
    by_cases hc : c = true
    · rw [if_pos hc]
      exact ihk s d tb h
    · rw [if_neg hc]
      exact h
  | accessorPropE c k v ihk ihv =>
    intro s d tb h
    simp only [visitExpr]
    by_cases hc : c = true
    · rw [if_pos hc]
      split
      · exact ihv _ (d + 1) tb (ihk s d tb h)
      · exact ihk s d tb h
    · rw [if_neg hc]
      split
      · exact ihv _ (d + 1) tb h
      · exact h
  | accessorPropNoValueE c k ihk =>
    intro s d tb h
    simp only [visitExpr]
    by_cases hc : c = true
    · rw [if_pos hc]
      exact ihk s d tb h
    · rw [if_neg hc]
      exact h
  | seqE e1 e2 ih1 ih2 =>
    intro s d tb h
    exact ih2 _ d tb (ih1 s d tb h)
  | emptyE => intro s d tb h; exact h
  | otherE child ih =>
    intro s d tb h
    exact ih s d tb h

/-- Claim C7: the temp binding is memoized per class — once created,
`get_temp_binding` returns the stored binding with the state unchanged (no
second symbol is ever synthesized), and no visit of any expression at any
depth ever replaces or discards it, so repeated visits and multiple
initializers of the same class reuse the one binding. -/
theorem tempBindingCreatedOnceAndReused (s : VState) (tb : TempBinding)
    (h : s.tempBinding = some tb) :
    getTempBinding s = (s, tb)
    ∧ ∀ (d : Nat) (e : Expr), (visitExpr s d e).1.tempBinding = some tb :=
  ⟨getTempBinding_of_some s tb h, fun d e => visitExpr_tempBinding_mono e s d tb h⟩

/-- Witness for claim C7 at `witnessState`: the stored binding `_C` is
returned as is, and a visit rewriting both a `this` and a class-name
reference still ends with the same binding. -/
theorem tempBindingReuseWitness :
    getTempBinding witnessState = (witnessState, { name := "_C", symbolId := 9 })
    ∧ (visitExpr witnessState 0 (.seqE (.thisE 1) (.identRef 7 2 "C"))).1.tempBinding
        = some { name := "_C", symbolId := 9 } :=
  ⟨(tempBindingCreatedOnceAndReused witnessState { name := "_C", symbolId := 9 } rfl).1,
   (tempBindingCreatedOnceAndReused witnessState { name := "_C", symbolId := 9 } rfl).2
     0 (.seqE (.thisE 1) (.identRef 7 2 "C"))⟩

/-- Claim C8: visiting an arrow function walks its body at the current
`this_depth` (no increment), unlike an ordinary function whose body is
walked at depth + 1; concretely, for
`class C { static getSelf = () => this; }` the `this` inside the arrow is
still at depth 0 and is rewritten to a read (reference 0) of the freshly
created temp binding (symbol 1). -/
theorem arrowNoDepthIncrement (s : VState) (d : Nat) (body : Expr) :
    visitExpr s d (.arrowE body) = ((visitExpr s d body).1, .arrowE (visitExpr s d body).2)
    ∧ visitExpr s d (.funcE body)
        = (if s.classHasNameOrPrivateProps then
            ((visitExpr s (d + 1) body).1, .funcE (visitExpr s (d + 1) body).2)
          else (s, .funcE body))
    ∧ (transformStaticInitializer stateGetSelf (.arrowE (.thisE 40))).2
        = .arrowE (.identRef 0 40 "_Class")
    ∧ getReferenceSymbolId
        (transformStaticInitializer stateGetSelf (.arrowE (.thisE 40))).1.table 0 = some 1
    ∧ (transformStaticInitializer stateGetSelf (.arrowE (.thisE 40))).1.tempBinding
        = some { name := "_Class", symbolId := 1 } := by
  refine ⟨rfl, ?_, by decide, by decide, by decide⟩
  rfl

end StaticProp
